import Mathlib

/-!
Verification of the Provider Abstraction & Configuration Subsystem of gitbro.

The embedding models `src/config.py` (class `Config`: the settings store) and
`src/providers.py` (the provider implementations and the resolver function
`get_provider`).

Modelling conventions:
* Python floats are embedded as `Rat` (the temperature arithmetic here is
  exact: `max`, `min`, and literals with one decimal digit).
* Python dicts of strings (`api_keys`, `settings['model']`) are embedded as
  association lists with Python dict-assignment semantics: updating an
  existing key keeps its position, a new key is appended at the end.
* The JSON text in the config file is embedded as a `Json` value; the file
  itself is a `FileContent`: missing, unparseable text, or a parsed value.
* A raised Python exception is embedded as `Except.error` carrying the
  exception's message string; a method that mutates `self` and may raise is
  a function returning the error (if any) together with the resulting state.
* `os.chmod(file, 0o600)` is embedded as setting the `mode` field of the
  file-system state to `some 0o600`.
-/

/-- JSON values, covering the fragment the configuration store reads and
writes and the provider response bodies. -/
inductive Json where
  | null
  | str (s : String)
  | num (q : Rat)
  | arr (elems : List Json)
  | obj (fields : List (String × Json))

/-- Python `d[k] = v` on a string dict: replace in place if the key exists
(keeping its position, as Python dicts preserve insertion order), otherwise
append the new pair at the end. -/
def AList.set : List (String × String) → String → String → List (String × String)
  | [], k, v => [(k, v)]
  | (k', v') :: rest, k, v =>
    if k' = k then (k, v) :: rest else (k', v') :: AList.set rest k v

/-- Python `d.get(k)` on a string dict. -/
def AList.get? : List (String × String) → String → Option String
  | [], _ => none
  | (k', v') :: rest, k => if k' = k then some v' else AList.get? rest k

/-- Lookup in a JSON object's field list (Python `d.get(k)` / `d[k]`). -/
def JList.get? : List (String × Json) → String → Option Json
  | [], _ => none
  | (k', v') :: rest, k => if k' = k then some v' else JList.get? rest k

/-- The `settings` sub-dict of the configuration record
(`config.py` lines 27-31). -/
structure SettingsRec where
  temperature : Rat
  max_tokens : Rat
  model : List (String × String)
deriving DecidableEq

/-- The in-memory configuration record `Config._config`
(`config.py` lines 24-32). -/
structure ConfigState where
  provider : Option String
  api_keys : List (String × String)
  settings : SettingsRec
deriving DecidableEq

/-- The default record returned by `Config._load_config` when the file is
missing or unreadable (`config.py` lines 24-32). -/
def defaultConfig : ConfigState :=
  { provider := none
    api_keys := []
    settings :=
      { temperature := 7 / 10
        max_tokens := 150
        model := [] } }

/-- `Config.get_provider` (`config.py` line 44). -/
def ConfigState.get_provider (c : ConfigState) : Option String :=
  c.provider

/-- `Config.get_api_key` (`config.py` line 56). -/
def ConfigState.get_api_key (c : ConfigState) (provider : String) : Option String :=
  AList.get? c.api_keys provider

/-- The hard-coded per-provider default models in `Config.get_model`
(`config.py` lines 67-72). -/
def default_models : List (String × String) :=
  [("openai", "gpt-3.5-turbo"),
   ("gemini", "gemini-pro"),
   ("claude", "claude-3-haiku-20240307"),
   ("ollama", "llama3.2")]

/-- `Config.get_model` (`config.py` line 65): stored model if present, else
the hard-coded default for the provider, else the empty string. -/
def ConfigState.get_model (c : ConfigState) (provider : String) : String :=
  match AList.get? c.settings.model provider with
  | some m => m
  | none => (AList.get? default_models provider).getD ""

/-- `Config.get_temperature` (`config.py` line 80). -/
def ConfigState.get_temperature (c : ConfigState) : Rat :=
  c.settings.temperature

/-- `Config.is_configured` (`config.py` lines 135-145).  A `none` argument is
Python's `provider=None` default, which falls back to the selected provider.
`if not provider` is Python falsiness: both `None` and the empty string give
`False`.  The final `bool(self.get_api_key(provider))` is `False` exactly
when the key is absent or the empty string. -/
def ConfigState.is_configured (c : ConfigState) (provider : Option String := none) : Bool :=
  let p := match provider with
    | none => c.get_provider
    | some x => some x
  match p with
  | none => false
  | some pr =>
    if pr = "" then false
    else if pr = "ollama" then true
    else
      match c.get_api_key pr with
      | none => false
      | some k => !(k = "")

/-- The list `valid_providers` in `Config.set_provider`
(`config.py` line 50). -/
def valid_providers : List String :=
  ["openai", "gemini", "claude", "ollama"]

/-- Serialization of a string dict by `json.dump`. -/
def strMapToJson (m : List (String × String)) : Json :=
  .obj (m.map fun p => (p.1, .str p.2))

/-- Serialization of the configuration record as written by
`Config._save_config` via `json.dump` (`config.py` line 38). -/
def ConfigState.toJson (c : ConfigState) : Json :=
  .obj [("provider", match c.provider with | none => .null | some p => .str p),
        ("api_keys", strMapToJson c.api_keys),
        ("settings",
          .obj [("temperature", .num c.settings.temperature),
                ("max_tokens", .num c.settings.max_tokens),
                ("model", strMapToJson c.settings.model)])]

/-- Parsing of a string dict back from JSON. -/
def strMapFromJson? : List (String × Json) → Option (List (String × String))
  | [] => some []
  | (k, .str v) :: rest => (strMapFromJson? rest).map fun m => (k, v) :: m
  | _ => none

/-- Parsing of the `provider` field: `null` is Python `None`. -/
def provFromJson? : Json → Option (Option String)
  | .null => some none
  | .str s => some (some s)
  | _ => none

/-- Recognizer for JSON values of exactly the record shape that
`Config._save_config` emits.  (`json.load` in `Config._load_config` performs
no shape validation; every state reachable through the store has this shape,
and the embedding types the in-memory record as `ConfigState`.) -/
def ConfigState.fromJson? : Json → Option ConfigState
  | .obj [("provider", pj),
          ("api_keys", .obj kj),
          ("settings",
            .obj [("temperature", .num t),
                  ("max_tokens", .num mt),
                  ("model", .obj mj)])] =>
    match provFromJson? pj, strMapFromJson? kj, strMapFromJson? mj with
    | some prov, some keys, some models =>
      some { provider := prov
             api_keys := keys
             settings := { temperature := t, max_tokens := mt, model := models } }
    | _, _, _ => none
  | _ => none

/-- The configuration file on disk: absent, present but not valid JSON, or
present with a parsed JSON value. -/
inductive FileContent where
  | missing
  | corrupt
  | stored (j : Json)

/-- `Config._load_config` (`config.py` lines 16-32): a missing file or a
parse failure silently yields the default record.  A stored value of the
record shape loads as that record.  (A stored value of any other shape is
returned raw by Python and crashes on first field access; the embedding maps
that unreachable-through-the-store case to the default record.) -/
def loadConfig : FileContent → ConfigState
  | .missing => defaultConfig
  | .corrupt => defaultConfig
  | .stored j => (ConfigState.fromJson? j).getD defaultConfig

/-- The file-system state seen by the store: the config file's content, its
permission bits (`none` before any successful write has set them), and
whether the file is writable. -/
structure FSState where
  file : FileContent
  mode : Option Nat
  writable : Bool

/-- The store together with the file system: a `Config` object plus the disk
it persists to. -/
structure Sys where
  conf : ConfigState
  fs : FSState

/-- `Config._save_config` (`config.py` lines 34-42): on a writable file,
serialize the full record, write it, and set mode `0o600`; on `IOError` a
warning is printed and the file is left untouched (the in-memory record,
already mutated by the caller, is kept). -/
def Sys.save_config (s : Sys) : Sys :=
  if s.fs.writable then
    { s with fs := { s.fs with file := .stored s.conf.toJson, mode := some 0o600 } }
  else s

/-- `Config.set_provider` (`config.py` lines 48-54): an unknown identifier
raises `ValueError` before any mutation; a known one is stored and
persisted.  The first component is the raised error, if any; the second is
the state of the object after the call. -/
def Sys.set_provider (s : Sys) (provider : String) : Except String Unit × Sys :=
  if provider ∈ valid_providers then
    (Except.ok (),
     Sys.save_config { s with conf := { s.conf with provider := some provider } })
  else
    (Except.error "Invalid provider. Must be one of: ['openai', 'gemini', 'claude', 'ollama']",
     s)

/-- `Config.set_api_key` (`config.py` lines 60-63). -/
def Sys.set_api_key (s : Sys) (provider api_key : String) : Sys :=
  Sys.save_config
    { s with conf := { s.conf with api_keys := AList.set s.conf.api_keys provider api_key } }

/-- `Config.set_model` (`config.py` lines 75-78). -/
def Sys.set_model (s : Sys) (provider model : String) : Sys :=
  Sys.save_config
    { s with conf :=
      { s.conf with settings :=
        { s.conf.settings with model := AList.set s.conf.settings.model provider model } } }

/-- `Config.set_temperature` (`config.py` lines 84-87): the stored value is
`max(0.0, min(2.0, temperature))`. -/
def Sys.set_temperature (s : Sys) (temperature : Rat) : Sys :=
  Sys.save_config
    { s with conf :=
      { s.conf with settings :=
        { s.conf.settings with temperature := max 0 (min 2 temperature) } } }

/-- `Config.get_temperature` lifted to the store-with-disk state. -/
def Sys.get_temperature (s : Sys) : Rat :=
  s.conf.get_temperature

/-- The errors raised by the resolver `get_provider` in `providers.py`
(lines 157-190), one constructor per distinct `raise` site:
`notConfigured` is "No provider configured. Please run with --setup first.",
`missingCredential p` is the per-provider "... API key not configured ..."
message, and `unknownProvider p` is "Unknown provider: ...". -/
inductive ResolveError where
  | notConfigured
  | missingCredential (provider : String)
  | unknownProvider (provider : String)
deriving DecidableEq

/-- The provider instance constructed by the resolver: one constructor per
`BaseProvider` subclass in `providers.py`, holding the fields its
constructor stores. -/
inductive ProviderInstance where
  | openai (api_key model : String) (temperature : Rat)
  | gemini (api_key model : String) (temperature : Rat)
  | claude (api_key model : String) (temperature : Rat)
  | ollama (model : String) (temperature : Rat)
deriving DecidableEq

/-- The resolver `get_provider` of `providers.py` (lines 157-190).
`provider_name = None` falls back to the configured provider; `if not
provider_name` (None or empty) raises the not-configured error; for each
remote backend `if not api_key` (absent or empty, collapsed here by
`Option.getD`) raises the missing-key error; `ollama` needs no key. -/
def Providers.get_provider (c : ConfigState) (provider_name : Option String := none) :
    Except ResolveError ProviderInstance :=
  let pn := match provider_name with
    | none => c.get_provider
    | some p => some p
  match pn with
  | none => .error .notConfigured
  | some name =>
    if name = "" then .error .notConfigured
    else
      let model := c.get_model name
      let temperature := c.get_temperature
      if name = "openai" then
        let key := (c.get_api_key "openai").getD ""
        if key = "" then .error (.missingCredential "openai")
        else .ok (.openai key model temperature)
      else if name = "gemini" then
        let key := (c.get_api_key "gemini").getD ""
        if key = "" then .error (.missingCredential "gemini")
        else .ok (.gemini key model temperature)
      else if name = "claude" then
        let key := (c.get_api_key "claude").getD ""
        if key = "" then .error (.missingCredential "claude")
        else .ok (.claude key model temperature)
      else if name = "ollama" then
        .ok (.ollama model temperature)
      else .error (.unknownProvider name)

/-- Python `str.strip()` with no argument: drop leading and trailing
whitespace (the ASCII whitespace characters suffice for every string the
claims touch). -/
def pyStrip (s : String) : String :=
  ⟨List.reverse (List.dropWhile Char.isWhitespace
    (List.reverse (List.dropWhile Char.isWhitespace s.data)))⟩

/-- The outcome of the single `requests.post` call in
`ClaudeProvider.generate_message` (`providers.py` line 119): the HTTP status
code, the raw body text, and the result of `response.json()` — either a
parsed JSON value or the message of the `ValueError` it raises on an
unparseable body. -/
structure HttpResponse where
  status_code : Nat
  text : String
  body : Except String Json

/-- Python truthiness of a JSON value (`not result["content"]` on line 125
of `providers.py`). -/
def jsonTruthy : Json → Bool
  | .null => false
  | .str s => !(s = "")
  | .num q => !(q = 0)
  | .arr l => !l.isEmpty
  | .obj l => !l.isEmpty

/-- Lines 124-128 of `providers.py`: `result = response.json()`, the
`"content" not in result or not result["content"]` guard, and the
extraction `result["content"][0]["text"].strip()`.  Shapes on which the
Python indexing would raise a `TypeError`/`KeyError` map to an error whose
message stands for the interpreter's text (not reproduced verbatim; no
claim depends on it). -/
def claudeExtract : Json → Except String String
  | .obj fields =>
    match JList.get? fields "content" with
    | none => .error "No response generated"
    | some c =>
      if jsonTruthy c then
        match c with
        | .arr (first :: _) =>
          match first with
          | .obj bf =>
            match JList.get? bf "text" with
            | some (.str t) => .ok (pyStrip t)
            | _ => .error "unexpected response shape"
          | _ => .error "unexpected response shape"
        | _ => .error "unexpected response shape"
      else .error "No response generated"
  | _ => .error "unexpected response shape"

/-- `ClaudeProvider.generate_message` (`providers.py` lines 97-130), as a
function of the backend's response to the single `requests.post` call the
method issues (the request construction on lines 100-117 only shapes that
outbound call; exactly one call is made, so no retry is representable).
A non-200 status raises `HTTP {code}: {text}`; every exception raised in
the `try` body is caught by the method's own handler and re-raised as
`Claude API error: {cause}`. -/
def ClaudeProvider.generate_message (resp : HttpResponse) : Except String String :=
  let inner : Except String String :=
    if resp.status_code ≠ 200 then
      .error ("HTTP " ++ toString resp.status_code ++ ": " ++ resp.text)
    else
      match resp.body with
      | .error e => .error e
      | .ok j => claudeExtract j
  match inner with
  | .ok v => .ok v
  | .error m => .error ("Claude API error: " ++ m)

/-- `OpenAIProvider.generate_message` (`providers.py` lines 44-58), as a
function of the outcome of the single library interaction
`client.chat.completions.create(...)` followed by
`response.choices[0].message.content`: `ok` carries that content string,
`error` carries `str(e)` of whatever exception the library raised (which is
how the library surfaces a non-success HTTP status).  The method issues
exactly one call and wraps any failure as `OpenAI API error: {cause}`. -/
def OpenAIProvider.generate_message (call : Except String String) : Except String String :=
  match call with
  | .ok content => .ok (pyStrip content)
  | .error e => .error ("OpenAI API error: " ++ e)

/-- `GeminiProvider.generate_message` (`providers.py` lines 68-88), as a
function of the outcome of `self.client.generate_content(...)` followed by
`response.text`.  An empty `response.text` raises `No response generated`;
all exceptions are wrapped as `Gemini API error: {cause}`. -/
def GeminiProvider.generate_message (call : Except String String) : Except String String :=
  match call with
  | .error e => .error ("Gemini API error: " ++ e)
  | .ok text =>
    if text = "" then .error ("Gemini API error: " ++ "No response generated")
    else .ok (pyStrip text)

/-- `OllamaProvider.generate_message` (`providers.py` lines 139-155), as a
function of the outcome of `llm.invoke(prompt)` (with the
`hasattr(response, 'content')` unwrapping folded into the `ok` payload).
Failures are wrapped as `Ollama error: {cause}`. -/
def OllamaProvider.generate_message (call : Except String String) : Except String String :=
  match call with
  | .error e => .error ("Ollama error: " ++ e)
  | .ok r => .ok (pyStrip r)

/-- `s` contains `sub` as a substring. -/
def strContains (s sub : String) : Prop :=
  ∃ a b, s = a ++ (sub ++ b)

/-- A writable disk with no config file yet: the state of `~/.gitbrain` on a
fresh machine. -/
def fsW : FSState := { file := .missing, mode := none, writable := true }

/-- A freshly constructed `Config` on a fresh machine: the default record in
memory, nothing on disk. -/
def sysA : Sys := { conf := defaultConfig, fs := fsW }

/-- A well-formed record whose stored temperature is out of range, as a
hand-edited or legacy config file could contain. -/
def cfgHot : ConfigState :=
  { defaultConfig with settings := { defaultConfig.settings with temperature := 5 } }

/- ### Helper lemmas -/

theorem save_config_conf (s : Sys) : (Sys.save_config s).conf = s.conf := by
  unfold Sys.save_config
  split <;> rfl

theorem alist_get_set (l : List (String × String)) (k v : String) :
    AList.get? (AList.set l k v) k = some v := by
  induction l with
  | nil => simp [AList.set, AList.get?]
  | cons p rest ih =>
    obtain ⟨k', v'⟩ := p
    by_cases h : k' = k <;> simp [AList.set, AList.get?, h, ih]

theorem clamp_mem (t : Rat) : 0 ≤ max 0 (min 2 t) ∧ max 0 (min 2 t) ≤ 2 :=
  ⟨le_max_left 0 _, max_le (by norm_num) (min_le_left 2 t)⟩

theorem strMap_roundtrip (m : List (String × String)) :
    strMapFromJson? (m.map fun p => (p.1, Json.str p.2)) = some m := by
  induction m with
  | nil => rfl
  | cons p rest ih =>
    obtain ⟨k, v⟩ := p
    simp [strMapFromJson?, ih]

theorem fromJson_toJson (c : ConfigState) : ConfigState.fromJson? c.toJson = some c := by
  obtain ⟨provider, api_keys, t, mt, model⟩ := c
  cases provider <;>
    simp [ConfigState.toJson, ConfigState.fromJson?, strMapToJson, strMap_roundtrip,
      provFromJson?]

theorem empty_append_str (s : String) : "" ++ s = s := by
  cases s with
  | mk l => rfl

theorem strContains_cat (a sub b : String) : strContains (a ++ (sub ++ b)) sub :=
  ⟨a, b, rfl⟩

theorem strContains_head (sub b : String) : strContains (sub ++ b) sub :=
  ⟨"", b, (empty_append_str _).symm⟩

theorem strContains_mono_left (pre s sub : String) (h : strContains s sub) :
    strContains (pre ++ s) sub := by
  obtain ⟨a, b, rfl⟩ := h
  exact ⟨pre ++ a, b, (String.append_assoc pre a (sub ++ b)).symm⟩

/- ### Claims -/

/-- C1: for every float input `t`, after `set_temperature(t)` a subsequent
`get_temperature()` returns `clamp(t, 0.0, 2.0)` (that is,
`max(0.0, min(2.0, t))`); out-of-range inputs are clamped, never rejected,
and the stored temperature is in `[0.0, 2.0]` after every `set_temperature`
call. -/
theorem C1_set_temperature_clamps (s : Sys) (t : Rat) :
    (s.set_temperature t).get_temperature = max 0 (min 2 t) ∧
    0 ≤ (s.set_temperature t).get_temperature ∧
    (s.set_temperature t).get_temperature ≤ 2 := by
  have hval : (s.set_temperature t).get_temperature = max 0 (min 2 t) := by
    simp [Sys.set_temperature, Sys.get_temperature, ConfigState.get_temperature,
      save_config_conf]
  exact ⟨hval, hval ▸ (clamp_mem t).1, hval ▸ (clamp_mem t).2⟩

/-- C2: for every identifier not in
`{openai, gemini, claude, ollama}`, `set_provider` raises `ValueError`
(the `InvalidArgument` condition) and the object's state after the call is
exactly the state before it, so `get_provider()` is unchanged: the raise
happens before any mutation. -/
theorem C2_set_provider_invalid_rejected (s : Sys) (id : String)
    (h : id ∉ valid_providers) :
    (s.set_provider id).1 =
      Except.error "Invalid provider. Must be one of: ['openai', 'gemini', 'claude', 'ollama']" ∧
    (s.set_provider id).2 = s ∧
    (s.set_provider id).2.conf.get_provider = s.conf.get_provider := by
  simp [Sys.set_provider, h]

/-- Witness for C2 at the unknown identifier `"foo"` on a fresh system. -/
theorem C2_witness :
    "foo" ∉ valid_providers ∧
    (sysA.set_provider "foo").1 =
      Except.error "Invalid provider. Must be one of: ['openai', 'gemini', 'claude', 'ollama']" ∧
    (sysA.set_provider "foo").2 = sysA ∧
    (sysA.set_provider "foo").2.conf.get_provider = sysA.conf.get_provider := by
  have h : "foo" ∉ valid_providers := by decide
  have hc := C2_set_provider_invalid_rejected sysA "foo" h
  exact ⟨h, hc.1, hc.2.1, hc.2.2⟩

/-- C3: `is_configured("ollama")` is true in every settings state;
for each remote identifier, `is_configured(id)` is true iff a credential is
stored for `id` (per the store's convention — shared by `is_configured` and
the resolver — an empty-string secret counts as no stored credential); with
no argument it evaluates the currently selected provider and is false when
none is selected. -/
theorem C3_is_configured (c : ConfigState) :
    c.is_configured (some "ollama") = true ∧
    (∀ p, p ∈ ["openai", "gemini", "claude"] →
      (c.is_configured (some p) = true ↔ (c.get_api_key p).getD "" ≠ "")) ∧
    (c.get_provider = none → c.is_configured none = false) := by
  refine ⟨rfl, ?_, ?_⟩
  · intro p hp
    fin_cases hp <;>
      · cases h : c.get_api_key _ <;>
          simp [ConfigState.is_configured, h]
  · intro h
    simp [ConfigState.is_configured, h]

/-- Witness for C3 on a fresh default state. -/
theorem C3_witness :
    defaultConfig.is_configured (some "ollama") = true ∧
    (defaultConfig.is_configured (some "openai") = true ↔
      (defaultConfig.get_api_key "openai").getD "" ≠ "") ∧
    defaultConfig.is_configured none = false :=
  ⟨(C3_is_configured defaultConfig).1,
   (C3_is_configured defaultConfig).2.1 "openai" (by decide),
   (C3_is_configured defaultConfig).2.2 rfl⟩

/-- C4 counterexample: the resolver called with the explicitly given
identifier `""` fails with the not-configured condition, although an
identifier was given — so "fails with NotConfigured exactly when no
identifier is given and no provider is selected" is false as stated. -/
theorem C4_counterexample :
    Providers.get_provider defaultConfig (some "") = .error .notConfigured ∧
    (some "" : Option String) ≠ none :=
  ⟨rfl, by decide⟩

/-- C4 (amended): the resolver fails with `NotConfigured` exactly when the
effective identifier — the explicit one if given, else the stored
selection — is absent or the empty string; it fails with
`MissingCredential` when the resolved identifier is a remote provider with
no (or an empty) stored credential; and it succeeds for `ollama` with no
credential stored. -/
theorem C4_resolver_errors (c : ConfigState) (explicit : Option String) :
    (Providers.get_provider c explicit = .error .notConfigured ↔
      (match explicit with | none => c.get_provider | some p => some p).getD "" = "") ∧
    (∀ p, p ∈ ["openai", "gemini", "claude"] → (c.get_api_key p).getD "" = "" →
      Providers.get_provider c (some p) = .error (.missingCredential p)) ∧
    Providers.get_provider c (some "ollama") =
      .ok (.ollama (c.get_model "ollama") c.get_temperature) := by
  have step : ∀ name : String, name ≠ "" →
      Providers.get_provider c (some name) ≠ .error .notConfigured := by
    intro name h0
    simp only [Providers.get_provider]
    split_ifs <;> simp_all
  have key : Providers.get_provider c explicit =
      match (match explicit with | none => c.get_provider | some p => some p) with
      | none => Except.error .notConfigured
      | some name => Providers.get_provider c (some name) := by
    cases explicit with
    | none =>
      cases hp : c.get_provider <;>
        simp [Providers.get_provider, hp]
    | some name =>
      simp [Providers.get_provider]
  refine ⟨?_, ?_, rfl⟩
  · rw [key]
    generalize (match explicit with | none => c.get_provider | some p => some p) = en
    cases en with
    | none => simp
    | some name =>
      by_cases h0 : name = ""
      · subst h0
        simp [Providers.get_provider]
      · simp [h0, step name h0]
  · intro p hp hk
    fin_cases hp <;>
      simp_all [Providers.get_provider]

/-- Witness for C4: a fresh environment (scenario A) resolves to
`NotConfigured`; a remote provider with no key resolves to the missing-key
error; `ollama` resolves successfully with no credential stored. -/
theorem C4_witness :
    Providers.get_provider defaultConfig none = .error .notConfigured ∧
    Providers.get_provider defaultConfig (some "openai") =
      .error (.missingCredential "openai") ∧
    Providers.get_provider defaultConfig (some "ollama") =
      .ok (.ollama (defaultConfig.get_model "ollama") defaultConfig.get_temperature) :=
  ⟨(C4_resolver_errors defaultConfig none).1.mpr rfl,
   (C4_resolver_errors defaultConfig none).2.1 "openai" (by decide) rfl,
   (C4_resolver_errors defaultConfig none).2.2⟩

/-- C5: loading a missing settings file, or one whose contents fail to
parse, silently yields the documented default record: no selected provider,
empty credentials mapping, temperature 0.7, and the per-provider default
model names observable through `get_model`. -/
theorem C5_load_defaults :
    loadConfig .missing = defaultConfig ∧
    loadConfig .corrupt = defaultConfig ∧
    defaultConfig.get_provider = none ∧
    defaultConfig.api_keys = [] ∧
    defaultConfig.get_temperature = 7 / 10 ∧
    defaultConfig.get_model "openai" = "gpt-3.5-turbo" ∧
    defaultConfig.get_model "gemini" = "gemini-pro" ∧
    defaultConfig.get_model "claude" = "claude-3-haiku-20240307" ∧
    defaultConfig.get_model "ollama" = "llama3.2" :=
  ⟨rfl, rfl, rfl, rfl, rfl, rfl, rfl, rfl, rfl⟩

/-- C6: for every well-formed settings record, saving it and loading the
resulting file yields a record field-for-field equal to the original. -/
theorem C6_save_load_roundtrip (c : ConfigState) (fs : FSState)
    (h : fs.writable = true) :
    loadConfig (Sys.save_config ⟨c, fs⟩).fs.file = c := by
  have hfile : (Sys.save_config ⟨c, fs⟩).fs.file = .stored c.toJson := by
    simp [Sys.save_config, h]
  rw [hfile]
  simp [loadConfig, fromJson_toJson]

/-- Witness for C6: round trip of the default record on a writable disk. -/
theorem C6_witness :
    fsW.writable = true ∧
    loadConfig (Sys.save_config ⟨defaultConfig, fsW⟩).fs.file = defaultConfig :=
  ⟨rfl, C6_save_load_roundtrip defaultConfig fsW rfl⟩

/-- Helper: a prefix that splits as `a₁ ++ a₂` witnesses that `a₁` occurs in
`pre ++ s`. -/
theorem strContains_prefix_split (a₁ a₂ s pre : String) (hpre : pre = a₁ ++ a₂) :
    strContains (pre ++ s) a₁ := by
  rw [hpre, String.append_assoc]
  exact strContains_head _ _

/-- C7: a generate call whose backend returns a non-success HTTP status
raises a wrapped error whose message includes the backend name and — for the
Claude backend, whose HTTP handling is in this repository — the status code
verbatim.  For the three library-backed providers the wrapped message
includes the backend name and the full underlying cause text, hence the
status code whenever the library's exception text carries it.  Each
`generate_message` consumes the outcome of exactly one backend exchange, so
a failure surfaces immediately as the result: no retry happens. -/
theorem C7_generate_http_error :
    (∀ (st : Nat) (txt : String) (body : Except String Json), st ≠ 200 →
      ClaudeProvider.generate_message ⟨st, txt, body⟩ =
        .error ("Claude API error: " ++ ("HTTP " ++ toString st ++ ": " ++ txt)) ∧
      strContains ("Claude API error: " ++ ("HTTP " ++ toString st ++ ": " ++ txt)) "Claude" ∧
      strContains ("Claude API error: " ++ ("HTTP " ++ toString st ++ ": " ++ txt))
        (toString st)) ∧
    (∀ e sub : String, strContains e sub →
      OpenAIProvider.generate_message (.error e) = .error ("OpenAI API error: " ++ e) ∧
      strContains ("OpenAI API error: " ++ e) "OpenAI" ∧
      strContains ("OpenAI API error: " ++ e) sub) ∧
    (∀ e sub : String, strContains e sub →
      GeminiProvider.generate_message (.error e) = .error ("Gemini API error: " ++ e) ∧
      strContains ("Gemini API error: " ++ e) "Gemini" ∧
      strContains ("Gemini API error: " ++ e) sub) ∧
    (∀ e sub : String, strContains e sub →
      OllamaProvider.generate_message (.error e) = .error ("Ollama error: " ++ e) ∧
      strContains ("Ollama error: " ++ e) "Ollama" ∧
      strContains ("Ollama error: " ++ e) sub) := by
  refine ⟨?_, ?_, ?_, ?_⟩
  · intro st txt body h
    refine ⟨?_, ?_, ?_⟩
    · simp [ClaudeProvider.generate_message, h]
    · exact strContains_prefix_split "Claude" " API error: " _ _ rfl
    · refine ⟨"Claude API error: " ++ "HTTP ", ": " ++ txt, ?_⟩
      simp only [String.append_assoc]
  · intro e sub h
    exact ⟨rfl, strContains_prefix_split "OpenAI" " API error: " _ _ rfl,
      strContains_mono_left _ _ _ h⟩
  · intro e sub h
    exact ⟨rfl, strContains_prefix_split "Gemini" " API error: " _ _ rfl,
      strContains_mono_left _ _ _ h⟩
  · intro e sub h
    exact ⟨rfl, strContains_prefix_split "Ollama" " error: " _ _ rfl,
      strContains_mono_left _ _ _ h⟩

/-- Witness for C7: a stub backend answering HTTP 500 (scenario D), and a
library failure whose cause text carries the status line. -/
theorem C7_witness :
    (500 : Nat) ≠ 200 ∧
    ClaudeProvider.generate_message ⟨500, "Internal Server Error", .error "x"⟩ =
      .error ("Claude API error: " ++
        ("HTTP " ++ toString (500 : Nat) ++ ": " ++ "Internal Server Error")) ∧
    strContains
      ("Claude API error: " ++ ("HTTP " ++ toString (500 : Nat) ++ ": " ++ "Internal Server Error"))
      (toString (500 : Nat)) ∧
    OpenAIProvider.generate_message (.error "Error code: 500") =
      .error ("OpenAI API error: " ++ "Error code: 500") := by
  have h500 : (500 : Nat) ≠ 200 := by decide
  have hc := C7_generate_http_error.1 500 "Internal Server Error" (.error "x") h500
  have ho := C7_generate_http_error.2.1 "Error code: 500" "500" ⟨"Error code: ", "", rfl⟩
  exact ⟨h500, hc.1, hc.2.2, ho.1⟩

/-- C8: after every successful save the persisted file carries mode `0o600`
(owner read/write only), and this holds after each persisting mutator:
`set_temperature`, `set_api_key`, `set_model`, and `set_provider` with a
valid identifier. -/
theorem C8_save_mode_invariant (s : Sys) (t : Rat) (p k m q : String)
    (hq : q ∈ valid_providers) (h : s.fs.writable = true) :
    (Sys.save_config s).fs.mode = some 0o600 ∧
    (s.set_temperature t).fs.mode = some 0o600 ∧
    (s.set_api_key p k).fs.mode = some 0o600 ∧
    (s.set_model p m).fs.mode = some 0o600 ∧
    (s.set_provider q).2.fs.mode = some 0o600 := by
  refine ⟨?_, ?_, ?_, ?_, ?_⟩ <;>
    simp [Sys.save_config, Sys.set_temperature, Sys.set_api_key, Sys.set_model,
      Sys.set_provider, h, hq]

/-- Witness for C8 on a fresh writable system. -/
theorem C8_witness :
    "claude" ∈ valid_providers ∧
    sysA.fs.writable = true ∧
    (Sys.save_config sysA).fs.mode = some 0o600 ∧
    (sysA.set_temperature 1).fs.mode = some 0o600 ∧
    (sysA.set_api_key "openai" "sk-test").fs.mode = some 0o600 ∧
    (sysA.set_model "openai" "gpt-4").fs.mode = some 0o600 ∧
    (sysA.set_provider "claude").2.fs.mode = some 0o600 := by
  have hq : "claude" ∈ valid_providers := by decide
  have hc := C8_save_mode_invariant sysA 1 "openai" "sk-test" "gpt-4" "claude" hq rfl
  exact ⟨hq, rfl, hc.1, hc.2.1, hc.2.2.1, hc.2.2.2.1, hc.2.2.2.2⟩

/-- C9: after `set_api_key(id, "")` for a remote identifier, the empty
credential is treated as absent: `is_configured(id)` is false and
`resolve(id)` still fails with the missing-credential error even though a
`set_api_key` call was made. -/
theorem C9_empty_key_treated_absent (s : Sys) (p : String)
    (hp : p ∈ ["openai", "gemini", "claude"]) :
    (s.set_api_key p "").conf.is_configured (some p) = false ∧
    Providers.get_provider (s.set_api_key p "").conf (some p) =
      .error (.missingCredential p) := by
  have hkey : (s.set_api_key p "").conf.get_api_key p = some "" := by
    simp [Sys.set_api_key, save_config_conf, ConfigState.get_api_key, alist_get_set]
  fin_cases hp <;>
    exact ⟨by simp [ConfigState.is_configured, hkey],
           by simp [Providers.get_provider, hkey]⟩

/-- Witness for C9 at `openai` on a fresh system. -/
theorem C9_witness :
    "openai" ∈ ["openai", "gemini", "claude"] ∧
    (sysA.set_api_key "openai" "").conf.is_configured (some "openai") = false ∧
    Providers.get_provider (sysA.set_api_key "openai" "").conf (some "openai") =
      .error (.missingCredential "openai") := by
  have hp : "openai" ∈ ["openai", "gemini", "claude"] := by decide
  have hc := C9_empty_key_treated_absent sysA "openai" hp
  exact ⟨hp, hc.1, hc.2⟩

/-- C10: `load()` neither validates nor clamps: a well-formed settings file
whose stored temperature is out of range loads with that temperature
observable unchanged through `get_temperature`, and the in-range invariant
is only restored by the next `set_temperature` call. -/
theorem C10_load_does_not_clamp (c : ConfigState)
    (h : ¬ (0 ≤ c.get_temperature ∧ c.get_temperature ≤ 2)) :
    (loadConfig (.stored c.toJson)).get_temperature = c.get_temperature ∧
    ¬ (0 ≤ (loadConfig (.stored c.toJson)).get_temperature ∧
        (loadConfig (.stored c.toJson)).get_temperature ≤ 2) ∧
    (∀ (fs : FSState) (t : Rat),
      0 ≤ (Sys.set_temperature ⟨loadConfig (.stored c.toJson), fs⟩ t).get_temperature ∧
      (Sys.set_temperature ⟨loadConfig (.stored c.toJson), fs⟩ t).get_temperature ≤ 2) := by
  have hl : loadConfig (.stored c.toJson) = c := by
    simp [loadConfig, fromJson_toJson]
  rw [hl]
  refine ⟨rfl, h, ?_⟩
  intro fs t
  have hval : (Sys.set_temperature ⟨c, fs⟩ t).get_temperature = max 0 (min 2 t) := by
    simp [Sys.set_temperature, Sys.get_temperature, ConfigState.get_temperature,
      save_config_conf]
  rw [hval]
  exact clamp_mem t

/-- Witness for C10: a stored record with temperature 5 loads as 5; the next
`set_temperature` restores the range. -/
theorem C10_witness :
    ¬ (0 ≤ cfgHot.get_temperature ∧ cfgHot.get_temperature ≤ 2) ∧
    (loadConfig (.stored cfgHot.toJson)).get_temperature = cfgHot.get_temperature ∧
    ¬ (0 ≤ (loadConfig (.stored cfgHot.toJson)).get_temperature ∧
        (loadConfig (.stored cfgHot.toJson)).get_temperature ≤ 2) ∧
    0 ≤ (Sys.set_temperature ⟨loadConfig (.stored cfgHot.toJson), fsW⟩ 3).get_temperature ∧
    (Sys.set_temperature ⟨loadConfig (.stored cfgHot.toJson), fsW⟩ 3).get_temperature ≤ 2 := by
  have h : ¬ (0 ≤ cfgHot.get_temperature ∧ cfgHot.get_temperature ≤ 2) := by decide
  have hc := C10_load_does_not_clamp cfgHot h
  exact ⟨h, hc.1, hc.2.1, (hc.2.2 fsW 3).1, (hc.2.2 fsW 3).2⟩
